import Mathlib

/-!
Shallow embedding of the trap/interrupt dispatch layer (src/kernel/trap.cc,
src/kernel/console.cc) and the virtual-memory descriptor (src/include/vm.hh)
of the sv6 kernel, with theorems checking the natural-language specification
against the code.
-/

namespace Sv6

/-! ### Architectural constants

`traps.h`, `mmu.h` and the memory-layout header are not part of the source
tree given here, so the constant values below are modelled.  Every theorem
depends only on the ordering and distinctness of these values, which the
spec fixes: vectors 0-31 are architecturally fixed exception vectors and
32 and above are IRQ-assignable. -/

/-- Modelled from the spec: traps.h is missing from src/.  NMI exception
vector (architecturally fixed, x86 vector 2). -/
def T_NMI : Nat := 2

/-- Modelled from the spec: traps.h is missing from src/.  Illegal-opcode
exception vector (architecturally fixed, x86 vector 6). -/
def T_ILLOP : Nat := 6

/-- Modelled from the spec: traps.h is missing from src/.  Double-fault
exception vector (architecturally fixed, x86 vector 8). -/
def T_DBLFLT : Nat := 8

/-- Modelled from the spec: traps.h is missing from src/.  Page-fault
exception vector (architecturally fixed, x86 vector 14). -/
def T_PGFLT : Nat := 14

/-- Modelled from the spec: traps.h is missing from src/.  Base vector for
hardware IRQ lines; the spec states vectors 32 and above are
software/IRQ-assignable. -/
def T_IRQ0 : Nat := 32

/-- Modelled from the spec: traps.h is missing from src/.  Legacy timer IRQ
line number. -/
def IRQ_TIMER : Nat := 0

/-- Modelled from the spec: traps.h is missing from src/.  Legacy keyboard
IRQ line number. -/
def IRQ_KBD : Nat := 1

/-- Modelled from the spec: traps.h is missing from src/.  Legacy COM2 IRQ
line number. -/
def IRQ_COM2 : Nat := 3

/-- Modelled from the spec: traps.h is missing from src/.  Legacy COM1 IRQ
line number. -/
def IRQ_COM1 : Nat := 4

/-- Modelled from the spec: traps.h is missing from src/.  Legacy mouse IRQ
line number. -/
def IRQ_MOUSE : Nat := 12

/-- Modelled from the spec: traps.h is missing from src/.  Legacy IDE IRQ
line number. -/
def IRQ_IDE : Nat := 14

/-- Modelled from the spec: traps.h is missing from src/.  LAPIC error
interrupt line number. -/
def IRQ_ERROR : Nat := 19

/-- Modelled from the spec: traps.h is missing from src/.  Spurious
interrupt line number (so the spurious vector is `T_IRQ0 + 31 = 63`). -/
def IRQ_SPURIOUS : Nat := 31

/-- Modelled from the spec: traps.h is missing from src/.  TLB-shootdown
inter-processor vector. -/
def T_TLBFLUSH : Nat := 64

/-- Modelled from the spec: traps.h is missing from src/.  Sampler-configure
inter-processor vector. -/
def T_SAMPCONF : Nat := 65

/-- Modelled from the spec: traps.h is missing from src/.  Pause
inter-processor vector. -/
def T_PAUSE : Nat := 66

/-- Modelled from the spec: traps.h is missing from src/.  Generic IPI-call
inter-processor vector. -/
def T_IPICALL : Nat := 67

/-- Modelled from the spec: traps.h is missing from src/.  Wake-core
inter-processor vector. -/
def T_WAKE_CORE : Nat := 68

/-- Modelled from the spec: mmu.h is missing from src/.  Page-fault error
code bit set by hardware when the fault came from user mode (x86 bit 2). -/
def FEC_U : Nat := 4

/-- Modelled from the spec: the memory-layout header is missing from src/.
Top of the user-addressable range (the user/kernel split address). -/
def USERTOP : Nat := 2 ^ 47

/-- Modelled from the spec: the memory-layout header is missing from src/.
Base of the kernel address range. -/
def KBASE : Nat := 2 ^ 63

/-- Modelled from the spec: the memory-layout header is missing from src/.
Base of the kernel-global (secret-holding) region, above `KBASE`. -/
def KGLOBAL : Nat := 2 ^ 63 + 2 ^ 40

/-- Modelled from the spec: the memory-layout header is missing from src/.
Base of the kernel text segment. -/
def KTEXT : Nat := 2 ^ 64 - 2 ^ 31

/-- Modelled from the spec: the memory-layout header is missing from src/.
End of the kernel text segment. -/
def KTEXTEND : Nat := KTEXT + 2 ^ 30

/-- Modelled from the spec: the address of the `__uaccess_end` recovery stub
(defined in assembly, not under src/); the page-fault path redirects a
faulting user-access helper there. -/
def UACCESS_END : Nat := KTEXT + 2 ^ 20

/-! ### Virtual memory descriptor (src/include/vm.hh) -/

namespace vmdescFlags

/-- Bit used for radix tree range locking (vm.hh `FLAG_LOCK_BIT`). -/
def FLAG_LOCK_BIT : Nat := 0

/-- Lock flag (vm.hh `FLAG_LOCK`). -/
def FLAG_LOCK : Nat := 1 <<< FLAG_LOCK_BIT

/-- Set if this virtual page frame has been mapped (vm.hh `FLAG_MAPPED`). -/
def FLAG_MAPPED : Nat := 1 <<< 1

/-- Set if this virtual page frame is copy-on-write (vm.hh `FLAG_COW`). -/
def FLAG_COW : Nat := 1 <<< 2

/-- Set if this page frame maps anonymous memory (vm.hh `FLAG_ANON`). -/
def FLAG_ANON : Nat := 1 <<< 3

/-- Set if the page is writeable (vm.hh `FLAG_WRITE`). -/
def FLAG_WRITE : Nat := 1 <<< 4

/-- Set if the page should be shared across fork (vm.hh `FLAG_SHARED`). -/
def FLAG_SHARED : Nat := 1 <<< 5

end vmdescFlags

/-- Modelled from the spec: page_info.hh is missing from src/.  A
`page_info_ref` is a tracked reference to a physical page: it names the
underlying page (if any) and whether the reference is currently cached on a
core's page_map_cache.  Its copy constructor produces a reference to the
same underlying page that is not cached on any core (vm.hh's `dup` comment:
the duplicate "is now associated with a new page_map_cache and hence not
cached on any core"). -/
structure page_info_ref where
  page : Option Nat
  cached : Bool
deriving DecidableEq, Repr

/-- Modelled from the spec: copy construction of a `page_info_ref` keeps the
underlying page and drops the per-core cache association. -/
def page_info_ref.copy (p : page_info_ref) : page_info_ref :=
  { page := p.page, cached := false }

/-- A virtual memory descriptor (vm.hh `struct vmdesc`): flag word, backing
physical page reference, backing pageable (inode) reference and start
offset.  The pageable is represented by an abstract identity. -/
structure vmdesc where
  flags : Nat
  page : page_info_ref
  inode : Option Nat
  start : Int
deriving DecidableEq, Repr

/-- `vmdesc::dup` (vm.hh lines 110-113): copies the descriptor except for
its lock bit and its page tracker's cache association:
`vmdesc(flags & ~FLAG_LOCK, page_info_ref(page), inode, start)`.
The u64 complement mask `~FLAG_LOCK` is `2^64 - 2`. -/
def vmdesc.dup (d : vmdesc) : vmdesc :=
  { flags := d.flags &&& (2 ^ 64 - 2)
    page := d.page.copy
    inode := d.inode
    start := d.start }

/-! ### IRQ registry (src/kernel/trap.cc) -/

/-- One entry of the static `irq_info` table (trap.cc lines 58-63): the
registered handler chain (as abstract handler identities, front of the list
is the most recently registered handler) and the in-use flag. -/
structure irq_info_entry where
  handlers : List Nat
  in_use : Bool

/-- The `irq_info` table, indexed by GSI (line number).  The C array has
`256 - T_IRQ0` entries; indices at or above that bound are never used by
the code paths modelled here. -/
def IrqTable : Type := Nat → irq_info_entry

/-- Number of entries of `irq_info` (`256 - T_IRQ0`). -/
def NIRQ : Nat := 256 - T_IRQ0

/-- The statically zero-initialized `irq_info` table: no handlers, not in
use. -/
def irq_info_init : IrqTable := fun _ => ⟨[], false⟩

/-- `inittrap` (trap.cc lines 443-459), restricted to its effect on
`irq_info`: reserves all 16 legacy IRQs, the spurious vector's line and the
line of vector 255. -/
def inittrap (t : IrqTable) : IrqTable := fun g =>
  if g < 16 ∨ g = IRQ_SPURIOUS ∨ g = 255 - T_IRQ0 then
    { t g with in_use := true }
  else
    t g

/-- A claimed IRQ as returned by `irq::reserve`: the chosen line and the
vector assigned to it. -/
structure irq_claim where
  gsi : Nat
  vector : Nat
deriving DecidableEq, Repr

/-- The scan of `irq::reserve` over an explicit `accept_gsi` list
(trap.cc lines 660-666): first acceptable line that is not in use. -/
def findAccept (t : IrqTable) : List Nat → Option Nat
  | [] => none
  | g :: rest => if (t g).in_use = false then some g else findAccept t rest

/-- The scan of `irq::reserve` with no accept list (trap.cc lines 668-677):
walk line numbers from the top of the table down, returning the first line
not in use.  `findFree t (k+1)` examines line `k` first. -/
def findFree (t : IrqTable) : Nat → Option Nat
  | 0 => none
  | k + 1 => if (t k).in_use = false then some k else findFree t k

/-- `irq::reserve` (trap.cc lines 655-685): choose a free GSI (from the
accept list if one is given, otherwise by scanning from the top), mark it
in use, and record `vector = T_IRQ0 + gsi`.  Returns `none` when no line is
free (the C function returns false). -/
def irq_reserve (t : IrqTable) (accept : Option (List Nat)) :
    Option (irq_claim × IrqTable) :=
  let gsiFound := match accept with
    | some l => findAccept t l
    | none => findFree t NIRQ
  match gsiFound with
  | none => none
  | some g =>
    some (⟨g, T_IRQ0 + g⟩, fun x => if x = g then { t x with in_use := true } else t x)

/-! ### Interrupt-disable nesting: pushcli / popcli (trap.cc lines 609-629) -/

/-- Per-core state used by `pushcli`/`popcli`: the interrupt-enable flag of
the rflags register, the nesting counter `ncli`, and the saved flag
`intena`. -/
structure cli_state where
  if_flag : Bool
  ncli : Int
  intena : Bool
deriving DecidableEq, Repr

/-- `pushcli` (trap.cc lines 609-618): read rflags, disable interrupts, and
if the nesting counter was zero record whether interrupts had been
enabled. -/
def pushcli (s : cli_state) : cli_state :=
  let rflagsIF := s.if_flag
  if s.ncli = 0 then
    { if_flag := false, ncli := s.ncli + 1, intena := rflagsIF }
  else
    { if_flag := false, ncli := s.ncli + 1, intena := s.intena }

/-- `popcli` (trap.cc lines 620-629): panic (`none`) if interrupts are
enabled or the counter underflows; re-enable interrupts only when the
counter returns to zero and `intena` was recorded set. -/
def popcli (s : cli_state) : Option cli_state :=
  if s.if_flag then none
  else if s.ncli - 1 < 0 then none
  else if s.ncli - 1 = 0 ∧ s.intena then
    some { if_flag := true, ncli := s.ncli - 1, intena := s.intena }
  else
    some { if_flag := s.if_flag, ncli := s.ncli - 1, intena := s.intena }

/-- `n` successive calls to `pushcli`. -/
def pushcliIter : Nat → cli_state → cli_state
  | 0, s => s
  | n + 1, s => pushcliIter n (pushcli s)

/-- `n` successive calls to `popcli`, propagating a panic. -/
def popcliIter : Nat → cli_state → Option cli_state
  | 0, s => some s
  | n + 1, s => match popcli s with
    | none => none
    | some s2 => popcliIter n s2

/-! ### NMI entry path (trap.cc lines 178-232) -/

/-- Per-core NMI bookkeeping: the resumption address of the previous NMI
and the swallow counter for back-to-back NMIs. -/
structure nmi_state where
  nmi_lastpc : Nat
  nmi_swallow : Int
deriving DecidableEq, Repr

/-- The NMI-relevant core of `nmientry_c` (trap.cc lines 178-232): detect a
back-to-back NMI by comparing resumption addresses, reset the swallow
counter on a fresh address, panic (`none`) when no source was handled and
no swallow credit is owed, and otherwise credit `handled - 1` further
back-to-back NMIs.  `handled` is the number of active NMI sources found by
`sampintr`, a collaborator. -/
def nmientry_c (s : nmi_state) (rip : Nat) (handled : Nat) : Option nmi_state :=
  let isRepeat : Bool := s.nmi_lastpc = rip
  let swallow0 : Int := if isRepeat then s.nmi_swallow else 0
  if handled = 0 ∧ swallow0 = 0 then
    none
  else
    some { nmi_lastpc := rip, nmi_swallow := swallow0 + (handled : Int) - 1 }

/-! ### Trap dispatcher (trap.cc lines 106-441, console.cc kerneltrap)

The dispatcher is modelled as a function from the saved trap frame and the
ambient system state to a result carrying the ordered trace of externally
visible actions (collaborator calls, acknowledgments, prints), the updated
trap frame and state, and the terminal outcome of the trap. -/

/-- Externally visible actions of the trap path, in program order. -/
inductive Event : Type
  | stat_sched_tick
  | stat_blocked_tick
  | stat_delayed_tick
  | cprint
  | timerintr_ev
  | entry_record
  | refcache_tick
  | lapiceoi
  | piceoi
  | ideintr_ev
  | kbdintr_ev
  | mouseintr_ev
  | uartintr_ev
  | tlb_shootdown_ipi
  | sampconf_ev
  | pause_ev
  | ipicall_ev
  | handler_run (h : Nat)
  | switch_kstack
  | sti_ev
  | cli_ev
  | pagefault_call
  | deliver_signal_call
  | ensure_secrets_ev
  | reg_handler_run (v : Nat)
  | print_regs
  | print_backtrace
  | halt_ev
  | kill_message
  | procexit_ev
  | yield_ev
  | set_yield_flag
  | clear_yield_flag
deriving DecidableEq, Repr

/-- Terminal outcome of a trap: resume the interrupted context, halt the
kernel (`kerneltrap`/panic, which never returns), or terminate the current
process (`procexit`, which never returns). -/
inductive outcome : Type
  | resume
  | panicked
  | exited
deriving DecidableEq, Repr

/-- Store `v` into register slot `i` of a register file, mirroring a store
through the dispatcher's `regs` pointer table. -/
def updReg (regs : Nat → Nat) (i v : Nat) : Nat → Nat :=
  fun j => if j = i then v else regs j

/-- The saved trap frame.  `regs` holds the 16 general-purpose registers in
the order of the dispatcher's pointer table (trap.cc lines 358-361):
index 0 = rax, 1 = rcx, 2 = rdx, 3 = rbx, 4 = rsp, 5 = rbp, 6 = rsi,
7 = rdi, 8-15 = r8-r15. -/
structure trapframe where
  trapno : Nat
  err : Nat
  cs : Nat
  rip : Nat
  rbp : Nat
  regs : Nat → Nat

/-- The scheduler-relevant fields of the current process (`myproc()`). -/
structure proc_state where
  killed : Bool
  yield_ : Bool
  running : Bool
  uaccess_ : Bool
deriving DecidableEq, Repr

/-- The per-core fields of `mycpu()` read or written by the dispatcher. -/
structure cpu_state where
  id : Nat
  timer_printpc : Nat
  no_sched_count : Nat
  ncli : Nat
deriving DecidableEq, Repr

/-- Ambient state and collaborator oracles of one trap dispatch: the
current cpu and process, the faulting address (`rcr2()`), the debug entry
counter, the instruction word at `tf->rip` (for the illegal-opcode
emulations), the result the fault resolver `vmap::pagefault` would return,
the result `proc::deliver_signal(SIGSEGV)` would return, the `irq_info`
handler chains and the `registered_trap_handlers` table. -/
structure sys_state where
  cpu : cpu_state
  proc : Option proc_state
  cr2 : Nat
  entry_count : Nat
  instr_at_rip : Nat
  pf_result : Int
  deliver_ok : Bool
  irq_handlers : Nat → List Nat
  registered : Nat → Bool

/-- Modelled from the spec: cpu.hh is missing from src/.  The bit of the
per-core `no_sched_count` word that records a deferred yield request; the
low bits of the word hold the scheduler-suppression nesting count. -/
def NO_SCHED_COUNT_YIELD_REQUESTED : Nat := 2 ^ 31

/-- Result of `do_pagefault`: the returned `int`, the possibly updated trap
frame and the trace of actions taken. -/
structure pf_out where
  ret : Int
  tf : trapframe
  trace : List Event

/-- `do_pagefault` (trap.cc lines 106-165).  In order: the hard-coded
address-123 instrumentation hook; the transparent secret-mapping path for
kernel faults above `KGLOBAL`; resolution of user faults below `USERTOP`
through `vmap::pagefault` with a `SIGSEGV` delivery attempt on failure; the
`uaccess_` escape hatch; and otherwise failure (-1). -/
def do_pagefault (sys : sys_state) (tf : trapframe) (had_secrets : Bool) : pf_out :=
  if sys.cr2 = 123 then
    { ret := 0, tf := { tf with rip := (tf.rip + 8) % 2 ^ 64 },
      trace := [Event.entry_record] }
  else if (tf.cs &&& 3 = 0 ∨ sys.proc = none) ∧ had_secrets = false ∧ KGLOBAL ≤ sys.cr2 then
    { ret := 0, tf := tf, trace := [Event.switch_kstack] }
  else if sys.cr2 < USERTOP ∧ tf.err &&& FEC_U ≠ 0 then
    if 0 ≤ sys.pf_result then
      { ret := 0, tf := tf,
        trace := [Event.sti_ev, Event.pagefault_call, Event.cli_ev] }
    else if sys.deliver_ok then
      { ret := 0, tf := tf,
        trace := [Event.sti_ev, Event.pagefault_call, Event.cli_ev,
                  Event.deliver_signal_call] }
    else
      { ret := -1, tf := tf,
        trace := [Event.sti_ev, Event.pagefault_call, Event.cli_ev,
                  Event.deliver_signal_call] }
  else
    match sys.proc with
    | some p =>
      if p.uaccess_ then
        if p.uaccess_ ∧ sys.cpu.ncli = 0 ∧ 0 ≤ sys.pf_result then
          { ret := 0, tf := tf,
            trace := [Event.sti_ev, Event.pagefault_call, Event.cli_ev] }
        else
          { ret := 0,
            tf := { tf with regs := updReg tf.regs 0 (2 ^ 64 - 1), rip := UACCESS_END },
            trace := if p.uaccess_ ∧ sys.cpu.ncli = 0 then
                [Event.sti_ev, Event.pagefault_call, Event.cli_ev]
              else [] }
      else
        { ret := -1, tf := tf, trace := [] }
    | none => { ret := -1, tf := tf, trace := [] }

/-- `kerneltrap` (console.cc lines 282-308): disable interrupts, print the
register dump, print the stack backtrace, and halt; it never returns. -/
def kerneltrap_trace : List Event :=
  [Event.cli_ev, Event.print_regs, Event.print_backtrace, Event.halt_ev]

/-- Result of one trap dispatch. -/
structure trap_result where
  trace : List Event
  tf : trapframe
  sys : sys_state
  outc : outcome

/-- Common exit path of `trap` (trap.cc lines 425-440) reached through the
switch's `break`s: force process exit if it was killed and is returning to
user mode; otherwise yield on a timer tick or an explicit yield request,
then re-check the killed flag. -/
def trap_epilogue (sys : sys_state) (tf : trapframe) (tr : List Event) : trap_result :=
  match sys.proc with
  | some p =>
    if p.killed ∧ tf.cs &&& 3 = 3 then
      ⟨tr ++ [Event.procexit_ev], tf, sys, outcome.exited⟩
    else if p.running ∧ (tf.trapno = T_IRQ0 + IRQ_TIMER ∨ p.yield_) then
      if p.killed ∧ tf.cs &&& 3 = 3 then
        ⟨tr ++ [Event.yield_ev, Event.procexit_ev], tf, sys, outcome.exited⟩
      else
        ⟨tr ++ [Event.yield_ev], tf, sys, outcome.resume⟩
    else
      ⟨tr, tf, sys, outcome.resume⟩
  | none => ⟨tr, tf, sys, outcome.resume⟩

/-- The unhandled-trap policy (trap.cc lines 412-422), reached after every
branch of the `default:` arm fails: at kernel privilege or with no current
process the trap is fatal (`kerneltrap`); in user space the offending
process is marked killed and execution continues into the common exit
path. -/
def trap_unhandled (sys : sys_state) (tf : trapframe) (tr : List Event) : trap_result :=
  if sys.proc = none ∨ tf.cs &&& 3 = 0 then
    ⟨tr ++ kerneltrap_trace, tf, sys, outcome.panicked⟩
  else
    trap_epilogue
      { sys with proc := sys.proc.map (fun p => { p with killed := true }) }
      tf (tr ++ [Event.kill_message])

/-- The page-fault attempt made while evaluating the dispatcher's else-if
chain: `do_pagefault` runs (with its side effects) exactly when the vector
is the page-fault vector, by the chain's short-circuit evaluation
(trap.cc line 401). -/
def pf_step (sys : sys_state) (tf : trapframe) (had_secrets : Bool) : pf_out :=
  if tf.trapno = T_PGFLT then do_pagefault sys tf had_secrets
  else { ret := -1, tf := tf, trace := [] }

/-- The `default:` arm of the dispatcher's switch (trap.cc lines 355-422):
kernel-mode popcnt emulation, user-mode timing-probe emulation, the
registered-IRQ handler chain, the page-fault path, registered per-vector
handlers, and finally the unhandled-trap policy.  When one of the two
illegal-opcode guards matches but its byte pattern does not, control falls
out of the whole else-if chain straight to the unhandled-trap policy, as in
the source. -/
def trap_default (sys : sys_state) (tf : trapframe) (had_secrets : Bool) : trap_result :=
  if tf.trapno = T_ILLOP ∧ tf.cs &&& 3 = 0 ∧ KTEXT ≤ tf.rip ∧ tf.rip < KTEXTEND then
    if sys.instr_at_rip &&& 0xc0fffff0ff = 0xc0b80f40f3 then
      -- popcntq emulation (trap.cc lines 369-380).  `*regs[rm] = 0` clears
      -- the destination register; the loop's `regs[rm]++` increments the
      -- local pointer-table slot, not the register it points to, so no
      -- further store reaches the trap frame.
      let instr := sys.instr_at_rip
      let rm := ((instr >>> 35) &&& 0x7) ||| (((instr >>> 9) &&& 0x1) <<< 3)
      ⟨[], { tf with regs := updReg tf.regs rm 0, rip := (tf.rip + 5) % 2 ^ 64 },
        sys, outcome.resume⟩
    else
      trap_unhandled sys tf []
  else if tf.trapno = T_ILLOP ∧ tf.cs &&& 3 = 3 then
    if sys.instr_at_rip &&& 0xffff = 0x0b0f then
      -- ud2 timing-probe emulation (trap.cc lines 381-394)
      ⟨[Event.entry_record], { tf with rip := (tf.rip + 2) % 2 ^ 64 },
        { sys with entry_count := sys.entry_count + 1 }, outcome.resume⟩
    else
      trap_unhandled sys tf []
  else if T_IRQ0 ≤ tf.trapno ∧ sys.irq_handlers (tf.trapno - T_IRQ0) ≠ [] then
    -- registered IRQ line: run the whole handler chain, then acknowledge
    -- (trap.cc lines 395-400)
    ⟨(sys.irq_handlers (tf.trapno - T_IRQ0)).map Event.handler_run ++
        [Event.lapiceoi, Event.piceoi],
      tf, sys, outcome.resume⟩
  else
    if tf.trapno = T_PGFLT ∧ (pf_step sys tf had_secrets).ret = 0 then
      -- page fault resolved (trap.cc lines 401-404)
      if (match sys.proc with | some p => p.killed | none => false) then
        ⟨(pf_step sys tf had_secrets).trace ++ [Event.procexit_ev],
          (pf_step sys tf had_secrets).tf, sys, outcome.exited⟩
      else
        ⟨(pf_step sys tf had_secrets).trace, (pf_step sys tf had_secrets).tf,
          sys, outcome.resume⟩
    else if tf.trapno < 256 ∧ sys.registered tf.trapno then
      -- registered per-vector handler (trap.cc lines 405-410)
      ⟨(pf_step sys tf had_secrets).trace ++
          [Event.ensure_secrets_ev, Event.reg_handler_run tf.trapno],
        (pf_step sys tf had_secrets).tf, sys, outcome.resume⟩
    else
      trap_unhandled sys (pf_step sys tf had_secrets).tf
        (pf_step sys tf had_secrets).trace

/-- The trace of the timer-tick arm up to and including the
end-of-interrupt (trap.cc lines 251-286): the tick statistic, the optional
`timer_printpc` diagnostic prints, cpu 0's `timerintr` call and debug
entry-times recording, the refcache tick and `lapiceoi`. -/
def timer_trace (sys : sys_state) (tf : trapframe) : List Event :=
  [Event.stat_sched_tick] ++
  (if sys.cpu.timer_printpc ≠ 0 then
    if sys.cpu.timer_printpc = 2 ∧ KBASE < tf.rbp then
      [Event.cprint, Event.print_backtrace]
    else [Event.cprint]
  else []) ++
  (if sys.cpu.id = 0 then
    if sys.entry_count ≠ 0xffffffff then
      [Event.timerintr_ev, Event.entry_record]
    else [Event.timerintr_ev]
  else []) ++
  [Event.refcache_tick, Event.lapiceoi]

/-- State updates of the timer-tick arm before the suppression check
(trap.cc lines 258-285): `timer_printpc` is reset after printing, and cpu 0
advances the debug entry counter. -/
def timer_sys_update (sys : sys_state) : sys_state :=
  let cpu1 := if sys.cpu.timer_printpc ≠ 0 then
      { sys.cpu with timer_printpc := 0 }
    else sys.cpu
  if sys.cpu.id = 0 ∧ sys.entry_count ≠ 0xffffffff then
    { sys with cpu := cpu1, entry_count := sys.entry_count + 1 }
  else
    { sys with cpu := cpu1 }

/-- Trap-frame update of the timer-tick arm: the debug entry recorder
redirects the interrupted context once the counter reaches 100
(trap.cc lines 281-282). -/
def timer_tf_update (sys : sys_state) (tf : trapframe) : trapframe :=
  if sys.cpu.id = 0 ∧ sys.entry_count ≠ 0xffffffff ∧ sys.entry_count + 1 = 100 then
    { tf with rip := 0x100f }
  else tf

/-- The timer-tick arm of the dispatcher (trap.cc lines 251-295): account
the tick, acknowledge, and either defer the yield (recording the blocked
statistic and setting the yield-request bit of `no_sched_count`) when
scheduler suppression is active, or fall through to the common exit
path. -/
def trap_timer (sys : sys_state) (tf : trapframe) : trap_result :=
  if (timer_sys_update sys).cpu.no_sched_count ≠ 0 then
    -- inside a scheduler-suppressed critical section: record the
    -- deferral and request a yield instead of yielding
    -- (trap.cc lines 287-294)
    { trace := timer_trace sys tf ++
        [Event.stat_blocked_tick, Event.set_yield_flag]
      tf := timer_tf_update sys tf
      sys := { timer_sys_update sys with cpu := { (timer_sys_update sys).cpu with
        no_sched_count :=
          (timer_sys_update sys).cpu.no_sched_count |||
            NO_SCHED_COUNT_YIELD_REQUESTED } }
      outc := outcome.resume }
  else
    trap_epilogue (timer_sys_update sys) (timer_tf_update sys tf)
      (timer_trace sys tf)

/-- The trap dispatcher `trap` (trap.cc lines 247-441), written as the
switch's case chain in source order. -/
def trap (sys : sys_state) (tf : trapframe) (had_secrets : Bool) : trap_result :=
  if tf.trapno = T_IRQ0 + IRQ_TIMER then
    trap_timer sys tf
  else if tf.trapno = T_IRQ0 + IRQ_IDE then
    trap_epilogue sys tf [Event.ideintr_ev, Event.lapiceoi, Event.piceoi]
  else if tf.trapno = T_IRQ0 + IRQ_IDE + 1 then
    trap_epilogue sys tf []
  else if tf.trapno = T_IRQ0 + IRQ_KBD then
    trap_epilogue sys tf [Event.kbdintr_ev, Event.lapiceoi, Event.piceoi]
  else if tf.trapno = T_IRQ0 + IRQ_MOUSE then
    trap_epilogue sys tf [Event.mouseintr_ev, Event.lapiceoi, Event.piceoi]
  else if tf.trapno = T_IRQ0 + IRQ_COM2 ∨ tf.trapno = T_IRQ0 + IRQ_COM1 then
    trap_epilogue sys tf [Event.uartintr_ev, Event.lapiceoi, Event.piceoi]
  else if tf.trapno = T_IRQ0 + 7 ∨ tf.trapno = T_IRQ0 + IRQ_SPURIOUS then
    -- spurious interrupt: print a diagnostic and do NOT acknowledge
    -- (trap.cc lines 320-327)
    trap_epilogue sys tf [Event.cprint]
  else if tf.trapno = T_IRQ0 + IRQ_ERROR then
    trap_epilogue sys tf [Event.cprint, Event.lapiceoi]
  else if tf.trapno = T_TLBFLUSH then
    trap_epilogue sys tf [Event.lapiceoi, Event.tlb_shootdown_ipi]
  else if tf.trapno = T_SAMPCONF then
    trap_epilogue sys tf [Event.lapiceoi, Event.sampconf_ev]
  else if tf.trapno = T_PAUSE then
    trap_epilogue sys tf [Event.lapiceoi, Event.pause_ev]
  else if tf.trapno = T_IPICALL then
    trap_epilogue sys tf [Event.lapiceoi, Event.ipicall_ev]
  else if tf.trapno = T_WAKE_CORE then
    trap_epilogue sys tf [Event.lapiceoi]
  else
    trap_default sys tf had_secrets

/-! ### Deferred yield release (trap.cc lines 710-718 and the
scheduler-suppression scope) -/

/-- `scoped_critical::release_yield` (trap.cc lines 710-718): charge the
delayed-tick statistic, clear the yield-request bit of the per-core
`no_sched_count` word, then yield. -/
def release_yield (w : Nat) : Nat × List Event :=
  (w - NO_SCHED_COUNT_YIELD_REQUESTED,
    [Event.stat_delayed_tick, Event.clear_yield_flag, Event.yield_ev])

/-- Modelled from the spec: the `scoped_critical` destructor (cpu.hh, not
under src/) decrements the scheduler-suppression count; when the outermost
scope exits (count reaches zero) with a yield request pending, it honors
the deferred yield through `release_yield`. -/
def scoped_release (w : Nat) : Nat × List Event :=
  if w - 1 = NO_SCHED_COUNT_YIELD_REQUESTED then release_yield (w - 1)
  else (w - 1, [])

/-- Exit `n` nested scheduler-suppressed scopes, innermost first,
concatenating the traces. -/
def scoped_release_iter : Nat → Nat → Nat × List Event
  | 0, w => (w, [])
  | n + 1, w =>
    ((scoped_release_iter n (scoped_release w).1).1,
      (scoped_release w).2 ++ (scoped_release_iter n (scoped_release w).1).2)

/-! ## Theorems -/

/-- Bit `i` of the 64-bit mask `~FLAG_LOCK = 2^64 - 2`. -/
theorem u64_lock_mask_testBit (i : Nat) :
    (2 ^ 64 - 2 : Nat).testBit i = (decide (i ≠ 0) && decide (i < 64)) := by
  by_cases h64 : i < 64
  · interval_cases i <;> decide
  · have hlt : (2 ^ 64 - 2 : Nat) < 2 ^ i := by
      calc (2 ^ 64 - 2 : Nat) < 2 ^ 64 := by norm_num
      _ ≤ 2 ^ i := Nat.pow_le_pow_right (by norm_num) (Nat.le_of_not_lt h64)
    rw [Nat.testBit_lt_two_pow hlt]
    simp [h64]

/-- C9: the duplicate produced by `vmdesc::dup` for a copied address space
has the same flag bits as the original except that the embedded lock bit is
cleared, and it shares the original's backing page reference, pageable
(inode) reference and start offset unchanged. -/
theorem C9_vmdesc_dup_spec (d : vmdesc) (h : d.flags < 2 ^ 64) :
    (∀ i, d.dup.flags.testBit i = true ↔
      (d.flags.testBit i = true ∧ i ≠ vmdescFlags.FLAG_LOCK_BIT)) ∧
    d.dup.page.page = d.page.page ∧
    d.dup.inode = d.inode ∧
    d.dup.start = d.start := by
  refine ⟨fun i => ?_, rfl, rfl, rfl⟩
  show (d.flags &&& (2 ^ 64 - 2)).testBit i = true ↔ _
  rw [Nat.testBit_land, u64_lock_mask_testBit]
  constructor
  · intro hb
    simp only [Bool.and_eq_true, decide_eq_true_eq] at hb
    exact ⟨hb.1, by simpa [vmdescFlags.FLAG_LOCK_BIT] using hb.2.1⟩
  · rintro ⟨hb, hne⟩
    have hge : 2 ^ i ≤ d.flags := Nat.testBit_implies_ge hb
    have hi64 : i < 64 := by
      by_contra hcon
      have : (2 ^ 64 : Nat) ≤ 2 ^ i :=
        Nat.pow_le_pow_right (by norm_num) (Nat.le_of_not_lt hcon)
      omega
    simp [hb, hi64, vmdescFlags.FLAG_LOCK_BIT] at hne ⊢
    exact hne

/-- Witness for `C9_vmdesc_dup_spec` at a concrete locked, mapped,
copy-on-write descriptor. -/
theorem C9_vmdesc_dup_spec_witness :
    (7 : Nat) < 2 ^ 64 ∧
    ((∀ i, (vmdesc.dup ⟨7, ⟨some 5, true⟩, some 3, 42⟩).flags.testBit i = true ↔
        ((7 : Nat).testBit i = true ∧ i ≠ vmdescFlags.FLAG_LOCK_BIT)) ∧
      (vmdesc.dup ⟨7, ⟨some 5, true⟩, some 3, 42⟩).page.page = (some 5 : Option Nat) ∧
      (vmdesc.dup ⟨7, ⟨some 5, true⟩, some 3, 42⟩).inode = (some 3 : Option Nat) ∧
      (vmdesc.dup ⟨7, ⟨some 5, true⟩, some 3, 42⟩).start = (42 : Int)) :=
  ⟨by norm_num, C9_vmdesc_dup_spec ⟨7, ⟨some 5, true⟩, some 3, 42⟩ (by norm_num)⟩

/-- A successful `findAccept` scan returns a line not in use. -/
theorem findAccept_free (t : IrqTable) (l : List Nat) (g : Nat)
    (h : findAccept t l = some g) : (t g).in_use = false := by
  induction l with
  | nil => simp [findAccept] at h
  | cons x rest ih =>
    rw [findAccept] at h
    by_cases hx : (t x).in_use = false
    · simp [hx] at h
      subst h
      exact hx
    · simp [hx] at h
      exact ih h

/-- A successful `findFree` scan returns a line not in use. -/
theorem findFree_free (t : IrqTable) (n g : Nat)
    (h : findFree t n = some g) : (t g).in_use = false := by
  induction n with
  | zero => simp [findFree] at h
  | succ k ih =>
    rw [findFree] at h
    by_cases hx : (t k).in_use = false
    · simp [hx] at h
      subst h
      exact hx
    · simp [hx] at h
      exact ih h

/-- A successful `irq_reserve` returns a line whose in-use flag was false,
and the table it returns marks that line in use. -/
theorem irq_reserve_spec (t : IrqTable) (a : Option (List Nat))
    (c : irq_claim) (t2 : IrqTable) (h : irq_reserve t a = some (c, t2)) :
    (t c.gsi).in_use = false ∧
    t2 = (fun x => if x = c.gsi then { t x with in_use := true } else t x) ∧
    c.vector = T_IRQ0 + c.gsi := by
  rw [irq_reserve.eq_def] at h
  rcases a with _ | l
  · rcases hf : findFree t NIRQ with _ | g
    · simp [hf] at h
    · simp only [hf] at h
      injection h with h2
      injection h2 with hc ht
      subst hc
      exact ⟨findFree_free t NIRQ g hf, ht.symm, rfl⟩
  · rcases hf : findAccept t l with _ | g
    · simp [hf] at h
    · simp only [hf] at h
      injection h with h2
      injection h2 with hc ht
      subst hc
      exact ⟨findAccept_free t l g hf, ht.symm, rfl⟩

/-- C10: after `inittrap`, the legacy IRQ lines 0-15, the spurious line and
the line of vector 255 are in use; `irq::reserve` succeeds only on a line
whose in-use flag was false and marks it in use, so it never returns a
reserved line (in particular none of the boot-reserved ones) and two
successful reservations yield distinct lines; on success the vector equals
the line number plus the IRQ base vector. -/
theorem C10_irq_reserve_exclusive (t : IrqTable) (a : Option (List Nat))
    (c : irq_claim) (t2 : IrqTable) (hres : irq_reserve t a = some (c, t2)) :
    (t c.gsi).in_use = false ∧
    (t2 c.gsi).in_use = true ∧
    c.vector = T_IRQ0 + c.gsi ∧
    (∀ t0 g, (g < 16 ∨ g = IRQ_SPURIOUS ∨ g = 255 - T_IRQ0) →
      (inittrap t0 g).in_use = true) ∧
    (∀ t0, t = inittrap t0 →
      16 ≤ c.gsi ∧ c.gsi ≠ IRQ_SPURIOUS ∧ c.gsi ≠ 255 - T_IRQ0) ∧
    (∀ a2 c2 t3, irq_reserve t2 a2 = some (c2, t3) → c2.gsi ≠ c.gsi) := by
  obtain ⟨hfree, ht2, hvec⟩ := irq_reserve_spec t a c t2 hres
  have hmarked : (t2 c.gsi).in_use = true := by
    rw [ht2]
    simp
  have hinit : ∀ t0 g, (g < 16 ∨ g = IRQ_SPURIOUS ∨ g = 255 - T_IRQ0) →
      (inittrap t0 g).in_use = true := by
    intro t0 g hg
    rw [inittrap]
    simp [hg]
  refine ⟨hfree, hmarked, hvec, hinit, ?_, ?_⟩
  · intro t0 hteq
    subst hteq
    have hni : ¬(c.gsi < 16 ∨ c.gsi = IRQ_SPURIOUS ∨ c.gsi = 255 - T_IRQ0) := by
      intro hg
      rw [hinit t0 c.gsi hg] at hfree
      simp at hfree
    push_neg at hni
    exact ⟨hni.1, hni.2.1, hni.2.2⟩
  · intro a2 c2 t3 hres2
    obtain ⟨hfree2, _, _⟩ := irq_reserve_spec t2 a2 c2 t3 hres2
    intro heq
    rw [heq, hmarked] at hfree2
    simp at hfree2

/-- Witness for `C10_irq_reserve_exclusive`: reserving with no accept list
on the freshly initialized table claims line 222 (223, the line of vector
255, is boot-reserved) with vector 254. -/
theorem C10_irq_reserve_exclusive_witness :
    irq_reserve (inittrap irq_info_init) none =
      some (⟨222, 254⟩, fun x => if x = 222 then
        { inittrap irq_info_init x with in_use := true }
        else inittrap irq_info_init x) ∧
    ((inittrap irq_info_init) 222).in_use = false :=
  ⟨rfl, (C10_irq_reserve_exclusive (inittrap irq_info_init) none ⟨222, 254⟩
    (fun x => if x = 222 then { inittrap irq_info_init x with in_use := true }
      else inittrap irq_info_init x) rfl).1⟩

/-- `pushcli` on a state with a positive nesting count only disables
interrupts and increments the count. -/
theorem pushcliIter_from_one (n : Nat) :
    ∀ (k : Int) (e : Bool), 1 ≤ k →
      pushcliIter n ⟨false, k, e⟩ = ⟨false, k + n, e⟩ := by
  induction n with
  | zero =>
    intro k e _
    simp [pushcliIter]
  | succ m ih =>
    intro k e hk
    rw [pushcliIter]
    have hstep : pushcli ⟨false, k, e⟩ = ⟨false, k + 1, e⟩ := by
      rw [pushcli]
      simp [show ¬ (k = 0) by omega]
    rw [hstep, ih (k + 1) e (by omega)]
    congr 1
    push_cast
    ring

/-- After `n ≥ 1` calls to `pushcli` from an idle state, interrupts are
disabled, the counter is `n`, and the initial interrupt flag is saved. -/
theorem pushcliIter_spec (s : cli_state) (n : Nat) (h0 : s.ncli = 0) (h1 : 1 ≤ n) :
    pushcliIter n s = ⟨false, n, s.if_flag⟩ := by
  obtain ⟨m, rfl⟩ : ∃ m, n = m + 1 := ⟨n - 1, by omega⟩
  rw [pushcliIter]
  have hstep : pushcli s = ⟨false, 1, s.if_flag⟩ := by
    rw [pushcli]
    simp [h0]
  rw [hstep, pushcliIter_from_one m 1 s.if_flag (by omega)]
  congr 1
  push_cast
  ring

/-- `popcli` iteration splits into two runs. -/
theorem popcliIter_add (a b : Nat) (s : cli_state) :
    popcliIter (a + b) s = (popcliIter a s).bind (popcliIter b) := by
  induction a generalizing s with
  | zero => simp [popcliIter]
  | succ m ih =>
    rw [show m + 1 + b = (m + b) + 1 from by omega, popcliIter, popcliIter]
    cases popcli s with
    | none => simp
    | some s2 => simpa using ih s2

/-- An inner run of `popcli` calls (fewer than the nesting count) leaves
interrupts disabled and just decrements the counter. -/
theorem popcliIter_inner (j : Nat) :
    ∀ (k : Int) (e : Bool), (j : Int) < k →
      popcliIter j ⟨false, k, e⟩ = some ⟨false, k - j, e⟩ := by
  induction j with
  | zero =>
    intro k e _
    simp [popcliIter]
  | succ m ih =>
    intro k e h
    rw [popcliIter]
    have hk1 : (1 : Int) ≤ k - 1 := by push_cast at h; omega
    have hstep : popcli ⟨false, k, e⟩ = some ⟨false, k - 1, e⟩ := by
      simp [popcli, show ¬ ((k : Int) - 1 < 0) from by omega,
        show ¬ ((k : Int) - 1 = 0) from by omega]
    rw [hstep]
    show popcliIter m ⟨false, k - 1, e⟩ = _
    rw [ih (k - 1) e (by push_cast at h ⊢; omega)]
    congr 2
    push_cast
    ring

/-- The outermost `popcli` call restores the interrupt flag recorded by the
outermost `pushcli`. -/
theorem popcli_last (e : Bool) : popcli ⟨false, 1, e⟩ = some ⟨e, 0, e⟩ := by
  cases e <;> simp [popcli]

/-- C6: for a matched sequence of `n` `pushcli` calls followed by `n`
`popcli` calls starting from nesting level zero, every inner `popcli`
leaves interrupts disabled, and the outermost `popcli` leaves the
interrupt flag exactly as it was before the outermost `pushcli` (so if
interrupts were off, the pair leaves them off). -/
theorem C6_pushcli_popcli_matched (s : cli_state) (n : Nat)
    (h0 : s.ncli = 0) (h1 : 1 ≤ n) :
    (∀ j, j < n →
      popcliIter j (pushcliIter n s) = some ⟨false, (n : Int) - j, s.if_flag⟩) ∧
    popcliIter n (pushcliIter n s) = some ⟨s.if_flag, 0, s.if_flag⟩ := by
  have hpush := pushcliIter_spec s n h0 h1
  constructor
  · intro j hj
    rw [hpush]
    exact popcliIter_inner j n s.if_flag (by exact_mod_cast hj)
  · rw [hpush]
    obtain ⟨m, rfl⟩ : ∃ m, n = m + 1 := ⟨n - 1, by omega⟩
    rw [popcliIter_add m 1]
    have hinner : popcliIter m ⟨false, (m + 1 : Nat), s.if_flag⟩ =
        some ⟨false, 1, s.if_flag⟩ := by
      have := popcliIter_inner m ((m : Int) + 1) s.if_flag (by omega)
      rw [show ((m : Int) + 1) - m = 1 from by ring] at this
      simpa using this
    rw [hinner]
    show popcliIter 1 _ = _
    rw [popcliIter, popcli_last]
    simp [popcliIter]

/-- Witness for `C6_pushcli_popcli_matched`: two pushes and two pops from
an interrupt-enabled idle state; the inner pop keeps interrupts off, the
outer pop re-enables them. -/
theorem C6_pushcli_popcli_matched_witness :
    ((⟨true, 0, false⟩ : cli_state).ncli = 0 ∧ 1 ≤ 2) ∧
    (∀ j, j < 2 →
      popcliIter j (pushcliIter 2 ⟨true, 0, false⟩) =
        some ⟨false, (2 : Int) - j, true⟩) ∧
    popcliIter 2 (pushcliIter 2 ⟨true, 0, false⟩) = some ⟨true, 0, true⟩ :=
  ⟨⟨rfl, by omega⟩, C6_pushcli_popcli_matched ⟨true, 0, false⟩ 2 rfl (by omega)⟩

/-- C3: the NMI entry path panics exactly when no active NMI source was
found and no swallow credit is owed: a back-to-back NMI (same resumption
address) is swallowed while the swallow counter is nonzero, each handled
NMI adds `handled - 1` to the counter, and the counter is reset when the
resumption address differs from the previous NMI's. -/
theorem C3_nmi_panic_iff (s : nmi_state) (rip : Nat) (handled : Nat) :
    (nmientry_c s rip handled = none ↔
      handled = 0 ∧ (if s.nmi_lastpc = rip then s.nmi_swallow else 0) = 0) ∧
    (∀ s2, nmientry_c s rip handled = some s2 →
      s2.nmi_lastpc = rip ∧
      s2.nmi_swallow =
        (if s.nmi_lastpc = rip then s.nmi_swallow else 0) + (handled : Int) - 1) ∧
    (s.nmi_lastpc = rip → 0 < s.nmi_swallow → nmientry_c s rip handled ≠ none) ∧
    (s.nmi_lastpc ≠ rip → handled = 0 → nmientry_c s rip handled = none) := by
  by_cases hrep : s.nmi_lastpc = rip <;>
    by_cases hh : handled = 0 <;>
    by_cases hsw : s.nmi_swallow = 0 <;>
    simp [nmientry_c, hrep, hh, hsw] <;>
    omega

/-- Witness for `C3_nmi_panic_iff`: a repeated NMI with one swallow credit
and zero sources is swallowed rather than panicking. -/
theorem C3_nmi_panic_iff_witness :
    nmientry_c ⟨5, 1⟩ 5 0 ≠ none :=
  (C3_nmi_panic_iff ⟨5, 1⟩ 5 0).2.2.1 rfl (by norm_num)

/-- The common exit path only appends process-exit or yield events to the
trace it is given. -/
theorem trap_epilogue_trace_suffix (sys : sys_state) (tf : trapframe) (tr : List Event) :
    ∃ sfx, (trap_epilogue sys tf tr).trace = tr ++ sfx ∧
      ∀ e ∈ sfx, e = Event.procexit_ev ∨ e = Event.yield_ev := by
  cases hp : sys.proc with
  | none => exact ⟨[], by simp [trap_epilogue, hp], by simp⟩
  | some p =>
    by_cases h1 : p.killed ∧ tf.cs &&& 3 = 3
    · exact ⟨[Event.procexit_ev], by simp [trap_epilogue, hp, h1], by simp⟩
    · by_cases h2 : p.running ∧ (tf.trapno = T_IRQ0 + IRQ_TIMER ∨ p.yield_)
      · exact ⟨[Event.yield_ev], by simp [trap_epilogue, hp, h1, h2], by simp⟩
      · exact ⟨[], by simp [trap_epilogue, hp, h1, h2], by simp⟩

/-- Events of the incoming trace survive the common exit path. -/
theorem mem_trap_epilogue_of_mem (sys : sys_state) (tf : trapframe)
    (tr : List Event) (e : Event) (h : e ∈ tr) :
    e ∈ (trap_epilogue sys tf tr).trace := by
  obtain ⟨sfx, heq, _⟩ := trap_epilogue_trace_suffix sys tf tr
  rw [heq]
  exact List.mem_append_left _ h

/-- An event that is neither in the incoming trace nor a process-exit or
yield event is not in the trace after the common exit path. -/
theorem not_mem_trap_epilogue (sys : sys_state) (tf : trapframe)
    (tr : List Event) (e : Event) (h : e ∉ tr)
    (hne1 : e ≠ Event.procexit_ev) (hne2 : e ≠ Event.yield_ev) :
    e ∉ (trap_epilogue sys tf tr).trace := by
  obtain ⟨sfx, heq, hall⟩ := trap_epilogue_trace_suffix sys tf tr
  rw [heq]
  intro hmem
  rcases List.mem_append.mp hmem with hm | hm
  · exact h hm
  · rcases hall e hm with h1 | h1
    · exact hne1 h1
    · exact hne2 h1

/-- C7: the spurious interrupt vector is never acknowledged (the dispatcher
prints a diagnostic and returns with no end-of-interrupt), while every
other LAPIC/inter-processor vector it handles — TLB shootdown, sampler
configure, pause, IPI call, wake-core and LAPIC error — does issue
end-of-interrupt. -/
theorem C7_spurious_no_eoi (sys : sys_state) (tf : trapframe) (hs : Bool) :
    ((tf.trapno = T_IRQ0 + 7 ∨ tf.trapno = T_IRQ0 + IRQ_SPURIOUS) →
      Event.lapiceoi ∉ (trap sys tf hs).trace) ∧
    (tf.trapno = T_TLBFLUSH → Event.lapiceoi ∈ (trap sys tf hs).trace) ∧
    (tf.trapno = T_SAMPCONF → Event.lapiceoi ∈ (trap sys tf hs).trace) ∧
    (tf.trapno = T_PAUSE → Event.lapiceoi ∈ (trap sys tf hs).trace) ∧
    (tf.trapno = T_IPICALL → Event.lapiceoi ∈ (trap sys tf hs).trace) ∧
    (tf.trapno = T_WAKE_CORE → Event.lapiceoi ∈ (trap sys tf hs).trace) ∧
    (tf.trapno = T_IRQ0 + IRQ_ERROR → Event.lapiceoi ∈ (trap sys tf hs).trace) := by
  refine ⟨?_, ?_, ?_, ?_, ?_, ?_, ?_⟩
  · intro hsp
    have htr : trap sys tf hs = trap_epilogue sys tf [Event.cprint] := by
      rcases hsp with h | h <;>
        simp [trap, h, T_IRQ0, IRQ_TIMER, IRQ_IDE, IRQ_KBD, IRQ_MOUSE,
          IRQ_COM1, IRQ_COM2, IRQ_SPURIOUS]
    rw [htr]
    exact not_mem_trap_epilogue sys tf [Event.cprint] Event.lapiceoi
      (by simp) (by simp) (by simp)
  · intro h
    have htr : trap sys tf hs =
        trap_epilogue sys tf [Event.lapiceoi, Event.tlb_shootdown_ipi] := by
      simp [trap, h, T_IRQ0, IRQ_TIMER, IRQ_IDE, IRQ_KBD, IRQ_MOUSE,
        IRQ_COM1, IRQ_COM2, IRQ_SPURIOUS, IRQ_ERROR, T_TLBFLUSH]
    rw [htr]
    exact mem_trap_epilogue_of_mem sys tf _ Event.lapiceoi (by simp)
  · intro h
    have htr : trap sys tf hs =
        trap_epilogue sys tf [Event.lapiceoi, Event.sampconf_ev] := by
      simp [trap, h, T_IRQ0, IRQ_TIMER, IRQ_IDE, IRQ_KBD, IRQ_MOUSE,
        IRQ_COM1, IRQ_COM2, IRQ_SPURIOUS, IRQ_ERROR, T_TLBFLUSH, T_SAMPCONF]
    rw [htr]
    exact mem_trap_epilogue_of_mem sys tf _ Event.lapiceoi (by simp)
  · intro h
    have htr : trap sys tf hs =
        trap_epilogue sys tf [Event.lapiceoi, Event.pause_ev] := by
      simp [trap, h, T_IRQ0, IRQ_TIMER, IRQ_IDE, IRQ_KBD, IRQ_MOUSE,
        IRQ_COM1, IRQ_COM2, IRQ_SPURIOUS, IRQ_ERROR, T_TLBFLUSH, T_SAMPCONF,
        T_PAUSE]
    rw [htr]
    exact mem_trap_epilogue_of_mem sys tf _ Event.lapiceoi (by simp)
  · intro h
    have htr : trap sys tf hs =
        trap_epilogue sys tf [Event.lapiceoi, Event.ipicall_ev] := by
      simp [trap, h, T_IRQ0, IRQ_TIMER, IRQ_IDE, IRQ_KBD, IRQ_MOUSE,
        IRQ_COM1, IRQ_COM2, IRQ_SPURIOUS, IRQ_ERROR, T_TLBFLUSH, T_SAMPCONF,
        T_PAUSE, T_IPICALL]
    rw [htr]
    exact mem_trap_epilogue_of_mem sys tf _ Event.lapiceoi (by simp)
  · intro h
    have htr : trap sys tf hs = trap_epilogue sys tf [Event.lapiceoi] := by
      simp [trap, h, T_IRQ0, IRQ_TIMER, IRQ_IDE, IRQ_KBD, IRQ_MOUSE,
        IRQ_COM1, IRQ_COM2, IRQ_SPURIOUS, IRQ_ERROR, T_TLBFLUSH, T_SAMPCONF,
        T_PAUSE, T_IPICALL, T_WAKE_CORE]
    rw [htr]
    exact mem_trap_epilogue_of_mem sys tf _ Event.lapiceoi (by simp)
  · intro h
    have htr : trap sys tf hs =
        trap_epilogue sys tf [Event.cprint, Event.lapiceoi] := by
      simp [trap, h, T_IRQ0, IRQ_TIMER, IRQ_IDE, IRQ_KBD, IRQ_MOUSE,
        IRQ_COM1, IRQ_COM2, IRQ_SPURIOUS, IRQ_ERROR]
    rw [htr]
    exact mem_trap_epilogue_of_mem sys tf _ Event.lapiceoi (by simp)

/-- Witness for `C7_spurious_no_eoi` at the spurious vector 63 with an
idle system. -/
theorem C7_spurious_no_eoi_witness :
    Event.lapiceoi ∉
      (trap ⟨⟨1, 0, 0, 0⟩, none, 0, 0, 0, 0, false, fun _ => [], fun _ => false⟩
        ⟨T_IRQ0 + IRQ_SPURIOUS, 0, 8, 0, 0, fun _ => 0⟩ false).trace :=
  (C7_spurious_no_eoi _ _ false).1 (Or.inr rfl)

/-- Exiting a stack of scheduler-suppressed scopes with a pending yield
request yields exactly once, at the outermost exit. -/
theorem scoped_release_iter_spec (m : Nat) :
    scoped_release_iter (m + 1) (m + 1 + NO_SCHED_COUNT_YIELD_REQUESTED) =
      (0, [Event.stat_delayed_tick, Event.clear_yield_flag, Event.yield_ev]) := by
  induction m with
  | zero =>
    have hstep : scoped_release (0 + 1 + NO_SCHED_COUNT_YIELD_REQUESTED) =
        (0, [Event.stat_delayed_tick, Event.clear_yield_flag, Event.yield_ev]) := by
      rw [scoped_release,
        show 0 + 1 + NO_SCHED_COUNT_YIELD_REQUESTED - 1 =
          NO_SCHED_COUNT_YIELD_REQUESTED from by omega,
        if_pos rfl, release_yield, Nat.sub_self]
    rw [scoped_release_iter, hstep]
    simp [scoped_release_iter]
  | succ k ih =>
    have hstep : scoped_release (k + 1 + 1 + NO_SCHED_COUNT_YIELD_REQUESTED) =
        (k + 1 + NO_SCHED_COUNT_YIELD_REQUESTED, []) := by
      rw [scoped_release,
        show k + 1 + 1 + NO_SCHED_COUNT_YIELD_REQUESTED - 1 =
          k + 1 + NO_SCHED_COUNT_YIELD_REQUESTED from by omega,
        if_neg (by omega)]
    rw [scoped_release_iter, hstep]
    simp [ih]

/-- C5: a timer tick arriving while the per-core scheduler-suppression
count is nonzero does not yield: it records the deferral statistic and sets
the yield-request bit of the suppression word; and the deferred yield is
honored exactly once, when the outermost suppressed scope exits, with the
request bit cleared before the single yield. -/
theorem C5_deferred_yield_once (sys : sys_state) (tf : trapframe) (hs : Bool)
    (htimer : tf.trapno = T_IRQ0 + IRQ_TIMER)
    (hsup : sys.cpu.no_sched_count ≠ 0) :
    (Event.yield_ev ∉ (trap sys tf hs).trace ∧
      Event.stat_blocked_tick ∈ (trap sys tf hs).trace ∧
      Event.set_yield_flag ∈ (trap sys tf hs).trace ∧
      (trap sys tf hs).sys.cpu.no_sched_count =
        sys.cpu.no_sched_count ||| NO_SCHED_COUNT_YIELD_REQUESTED ∧
      (trap sys tf hs).outc = outcome.resume) ∧
    (∀ n : Nat, 1 ≤ n →
      scoped_release_iter n (n + NO_SCHED_COUNT_YIELD_REQUESTED) =
        (0, [Event.stat_delayed_tick, Event.clear_yield_flag, Event.yield_ev])) := by
  have hcount : (timer_sys_update sys).cpu.no_sched_count =
      sys.cpu.no_sched_count := by
    rw [timer_sys_update]
    by_cases h1 : sys.cpu.timer_printpc ≠ 0 <;>
      by_cases h2 : sys.cpu.id = 0 ∧ sys.entry_count ≠ 0xffffffff <;>
      simp [h1, h2]
  have hyp : Event.yield_ev ∉ timer_trace sys tf := by
    rw [timer_trace]
    by_cases h1 : sys.cpu.timer_printpc ≠ 0 <;>
      by_cases h2 : sys.cpu.timer_printpc = 2 ∧ KBASE < tf.rbp <;>
      by_cases h3 : sys.cpu.id = 0 <;>
      by_cases h4 : sys.entry_count ≠ 0xffffffff <;>
      simp [h1, h2, h3, h4]
  have htt : trap sys tf hs = trap_timer sys tf := by
    rw [trap, if_pos htimer]
  have hsup2 : (timer_sys_update sys).cpu.no_sched_count ≠ 0 := by
    rw [hcount]
    exact hsup
  have hbranch : trap_timer sys tf =
      { trace := timer_trace sys tf ++
          [Event.stat_blocked_tick, Event.set_yield_flag]
        tf := timer_tf_update sys tf
        sys := { timer_sys_update sys with
          cpu := { (timer_sys_update sys).cpu with
            no_sched_count := (timer_sys_update sys).cpu.no_sched_count |||
              NO_SCHED_COUNT_YIELD_REQUESTED } }
        outc := outcome.resume } := by
    rw [trap_timer, if_pos hsup2]
  constructor
  · rw [htt, hbranch]
    refine ⟨?_, ?_, ?_, ?_, rfl⟩
    · intro hmem
      rcases List.mem_append.mp hmem with hm | hm
      · exact hyp hm
      · simp at hm
    · exact List.mem_append_right _ (by simp)
    · exact List.mem_append_right _ (by simp)
    · simp [hcount]
  · intro n hn
    obtain ⟨m, rfl⟩ : ∃ m, n = m + 1 := ⟨n - 1, by omega⟩
    exact scoped_release_iter_spec m

/-- Witness for `C5_deferred_yield_once`: a timer tick on a core two
levels deep in scheduler suppression. -/
theorem C5_deferred_yield_once_witness :
    Event.yield_ev ∉
      (trap ⟨⟨1, 0, 2, 0⟩, none, 0, 0, 0, 0, false, fun _ => [], fun _ => false⟩
        ⟨T_IRQ0 + IRQ_TIMER, 0, 8, 0, 0, fun _ => 0⟩ false).trace ∧
    scoped_release_iter 2 (2 + NO_SCHED_COUNT_YIELD_REQUESTED) =
      (0, [Event.stat_delayed_tick, Event.clear_yield_flag, Event.yield_ev]) :=
  ⟨((C5_deferred_yield_once _ _ false rfl (by norm_num)).1).1,
    (C5_deferred_yield_once
      ⟨⟨1, 0, 2, 0⟩, none, 0, 0, 0, 0, false, fun _ => [], fun _ => false⟩
      ⟨T_IRQ0 + IRQ_TIMER, 0, 8, 0, 0, fun _ => 0⟩ false rfl (by norm_num)).2
      2 (by norm_num)⟩

/-- C2: a device interrupt on a registered IRQ line (a vector at or above
the IRQ base that the dispatcher does not special-case and whose line has a
non-empty handler chain) invokes every handler of the chain, and the
end-of-interrupt acknowledgments come after the entire chain, never before
any handler. -/
theorem C2_irq_chain_then_eoi (sys : sys_state) (tf : trapframe) (hs : Bool)
    (hge : T_IRQ0 ≤ tf.trapno)
    (hchain : sys.irq_handlers (tf.trapno - T_IRQ0) ≠ [])
    (hnc : tf.trapno ∉ ([T_IRQ0 + IRQ_TIMER, T_IRQ0 + IRQ_IDE,
      T_IRQ0 + IRQ_IDE + 1, T_IRQ0 + IRQ_KBD, T_IRQ0 + IRQ_MOUSE,
      T_IRQ0 + IRQ_COM2, T_IRQ0 + IRQ_COM1, T_IRQ0 + 7,
      T_IRQ0 + IRQ_SPURIOUS, T_IRQ0 + IRQ_ERROR, T_TLBFLUSH, T_SAMPCONF,
      T_PAUSE, T_IPICALL, T_WAKE_CORE] : List Nat)) :
    (trap sys tf hs).trace =
      (sys.irq_handlers (tf.trapno - T_IRQ0)).map Event.handler_run ++
        [Event.lapiceoi, Event.piceoi] ∧
    ∀ h ∈ sys.irq_handlers (tf.trapno - T_IRQ0),
      Event.handler_run h ∈ (trap sys tf hs).trace := by
  simp only [List.mem_cons, List.not_mem_nil, or_false, not_or] at hnc
  obtain ⟨h1, h2, h3, h4, h5, h6, h7, h8, h9, h10, h11, h12, h13, h14, h15⟩ := hnc
  have hill : ¬ (tf.trapno = T_ILLOP) := by
    simp only [T_ILLOP]
    simp only [T_IRQ0] at hge
    omega
  have htr : trap sys tf hs =
      ⟨(sys.irq_handlers (tf.trapno - T_IRQ0)).map Event.handler_run ++
          [Event.lapiceoi, Event.piceoi], tf, sys, outcome.resume⟩ := by
    rw [trap, if_neg h1, if_neg h2, if_neg h3, if_neg h4, if_neg h5,
      if_neg (by tauto : ¬ (tf.trapno = T_IRQ0 + IRQ_COM2 ∨
        tf.trapno = T_IRQ0 + IRQ_COM1)),
      if_neg (by tauto : ¬ (tf.trapno = T_IRQ0 + 7 ∨
        tf.trapno = T_IRQ0 + IRQ_SPURIOUS)),
      if_neg h10, if_neg h11, if_neg h12, if_neg h13, if_neg h14, if_neg h15]
    rw [trap_default,
      if_neg (by intro hc; exact hill hc.1),
      if_neg (by intro hc; exact hill hc.1),
      if_pos ⟨hge, hchain⟩]
  rw [htr]
  exact ⟨rfl, fun h hmem => by
    simp only [List.mem_append, List.mem_map]
    exact Or.inl ⟨h, hmem, rfl⟩⟩

/-- Witness for `C2_irq_chain_then_eoi`: vector 100 with a two-handler
chain on line 68. -/
theorem C2_irq_chain_then_eoi_witness :
    (trap ⟨⟨1, 0, 0, 0⟩, none, 0, 0, 0, 0, false,
        fun g => if g = 68 then [4, 9] else [], fun _ => false⟩
      ⟨100, 0, 8, 0, 0, fun _ => 0⟩ false).trace =
      [Event.handler_run 4, Event.handler_run 9, Event.lapiceoi,
        Event.piceoi] :=
  (C2_irq_chain_then_eoi _ _ false (by norm_num [T_IRQ0])
    (by simp [T_IRQ0]) (by decide)).1

/-- A page-fault trap reaches the `default:` arm of the switch. -/
theorem trap_pgflt_to_default (sys : sys_state) (tf : trapframe) (hs : Bool)
    (hpg : tf.trapno = T_PGFLT) :
    trap sys tf hs = trap_default sys tf hs := by
  rw [trap, hpg]
  norm_num [T_IRQ0, IRQ_TIMER, IRQ_IDE, IRQ_KBD, IRQ_MOUSE, IRQ_COM1,
    IRQ_COM2, IRQ_SPURIOUS, IRQ_ERROR, T_TLBFLUSH, T_SAMPCONF, T_PAUSE,
    T_IPICALL, T_WAKE_CORE, T_PGFLT]

/-- C1: a page fault taken from user mode at an address below the
user/kernel split whose resolution fails leads to a `SIGSEGV` delivery
attempt; if delivery is refused the process is marked killed and the trap
ends in the process-termination path, and if delivery succeeds the trap
resumes — the failure is never silently ignored. -/
theorem C1_pagefault_signal_or_kill (sys : sys_state) (tf : trapframe)
    (hs : Bool) (p : proc_state)
    (hpg : tf.trapno = T_PGFLT) (hcs : tf.cs &&& 3 = 3)
    (hproc : sys.proc = some p) (haddr : sys.cr2 < USERTOP)
    (hdbg : sys.cr2 ≠ 123) (herr : tf.err &&& FEC_U ≠ 0)
    (hfail : sys.pf_result < 0) (hreg : sys.registered T_PGFLT = false) :
    Event.deliver_signal_call ∈ (trap sys tf hs).trace ∧
    (sys.deliver_ok = false →
      (trap sys tf hs).outc = outcome.exited ∧
      (trap sys tf hs).sys.proc = some { p with killed := true } ∧
      Event.procexit_ev ∈ (trap sys tf hs).trace) ∧
    (sys.deliver_ok = true → p.killed = false →
      (trap sys tf hs).outc = outcome.resume) := by
  have hpf : do_pagefault sys tf hs =
      if sys.deliver_ok then
        { ret := 0, tf := tf,
          trace := [Event.sti_ev, Event.pagefault_call, Event.cli_ev,
            Event.deliver_signal_call] }
      else
        { ret := -1, tf := tf,
          trace := [Event.sti_ev, Event.pagefault_call, Event.cli_ev,
            Event.deliver_signal_call] } := by
    rw [do_pagefault, if_neg hdbg, if_neg (by simp [hcs, hproc]),
      if_pos ⟨haddr, herr⟩, if_neg (by omega)]
  have htd := trap_pgflt_to_default sys tf hs hpg
  cases hdel : sys.deliver_ok with
  | true =>
    have hstep : pf_step sys tf hs =
        { ret := 0, tf := tf,
          trace := [Event.sti_ev, Event.pagefault_call, Event.cli_ev,
            Event.deliver_signal_call] } := by
      rw [pf_step, if_pos hpg, hpf, if_pos hdel]
    cases hk : p.killed with
    | false =>
      have htr : trap sys tf hs =
          ⟨[Event.sti_ev, Event.pagefault_call, Event.cli_ev,
              Event.deliver_signal_call], tf, sys, outcome.resume⟩ := by
        rw [htd, trap_default, if_neg (by simp [hpg, T_PGFLT, T_ILLOP]),
          if_neg (by simp [hpg, T_PGFLT, T_ILLOP]),
          if_neg (by simp [hpg, T_PGFLT, T_IRQ0]),
          if_pos ⟨hpg, by rw [hstep]⟩, hproc]
        rw [if_neg (by simp [hk]), hstep]
      rw [htr]
      simp
    | true =>
      have htr : trap sys tf hs =
          ⟨[Event.sti_ev, Event.pagefault_call, Event.cli_ev,
              Event.deliver_signal_call, Event.procexit_ev], tf, sys,
            outcome.exited⟩ := by
        rw [htd, trap_default, if_neg (by simp [hpg, T_PGFLT, T_ILLOP]),
          if_neg (by simp [hpg, T_PGFLT, T_ILLOP]),
          if_neg (by simp [hpg, T_PGFLT, T_IRQ0]),
          if_pos ⟨hpg, by rw [hstep]⟩, hproc]
        rw [if_pos (by simp [hk]), hstep]
        rfl
      rw [htr]
      simp [hk]
  | false =>
    have hstep : pf_step sys tf hs =
        { ret := -1, tf := tf,
          trace := [Event.sti_ev, Event.pagefault_call, Event.cli_ev,
            Event.deliver_signal_call] } := by
      rw [pf_step, if_pos hpg, hpf, if_neg (by simp [hdel])]
    have htr : trap sys tf hs =
        trap_epilogue { sys with proc := some { p with killed := true } } tf
          [Event.sti_ev, Event.pagefault_call, Event.cli_ev,
            Event.deliver_signal_call, Event.kill_message] := by
      rw [htd, trap_default, if_neg (by simp [hpg, T_PGFLT, T_ILLOP]),
        if_neg (by simp [hpg, T_PGFLT, T_ILLOP]),
        if_neg (by simp [hpg, T_PGFLT, T_IRQ0]),
        if_neg (by rw [hstep]; simp),
        if_neg (by rw [hpg, hreg]; simp),
        hstep, trap_unhandled, if_neg (by simp [hproc, hcs]), hproc]
      rfl
    have hepi : trap_epilogue { sys with proc := some { p with killed := true } }
        tf [Event.sti_ev, Event.pagefault_call, Event.cli_ev,
          Event.deliver_signal_call, Event.kill_message] =
        ⟨[Event.sti_ev, Event.pagefault_call, Event.cli_ev,
          Event.deliver_signal_call, Event.kill_message, Event.procexit_ev],
          tf, { sys with proc := some { p with killed := true } },
          outcome.exited⟩ := by
      rw [trap_epilogue]
      simp [hcs]
    rw [htr, hepi]
    simp

/-- Witness for `C1_pagefault_signal_or_kill`: a user fault at address
4096 whose resolution fails with signal delivery refused kills and exits
the process. -/
theorem C1_pagefault_signal_or_kill_witness :
    (trap ⟨⟨1, 0, 0, 0⟩, some ⟨false, false, true, false⟩, 4096, 0, 0, -1,
        false, fun _ => [], fun _ => false⟩
      ⟨T_PGFLT, 4, 27, 100, 0, fun _ => 0⟩ false).outc = outcome.exited :=
  ((C1_pagefault_signal_or_kill _ _ false ⟨false, false, true, false⟩ rfl
    (by decide) rfl (by norm_num [USERTOP]) (by norm_num)
    (by decide) (by norm_num) rfl).2.1 rfl).1

/-- C4: a trap whose vector has no installed handler is fatal at kernel
privilege or without a current process — the kernel prints the register
dump and backtrace and halts — while at user privilege with a current
process only that process is marked killed and the kernel keeps running
(no halt; the trap ends in the process-exit path). -/
theorem C4_unhandled_trap_policy (sys : sys_state) (tf : trapframe) (hs : Bool)
    (hnc : tf.trapno ∉ ([T_IRQ0 + IRQ_TIMER, T_IRQ0 + IRQ_IDE,
      T_IRQ0 + IRQ_IDE + 1, T_IRQ0 + IRQ_KBD, T_IRQ0 + IRQ_MOUSE,
      T_IRQ0 + IRQ_COM2, T_IRQ0 + IRQ_COM1, T_IRQ0 + 7,
      T_IRQ0 + IRQ_SPURIOUS, T_IRQ0 + IRQ_ERROR, T_TLBFLUSH, T_SAMPCONF,
      T_PAUSE, T_IPICALL, T_WAKE_CORE] : List Nat))
    (hill : tf.trapno ≠ T_ILLOP) (hpgne : tf.trapno ≠ T_PGFLT)
    (hchain : T_IRQ0 ≤ tf.trapno → sys.irq_handlers (tf.trapno - T_IRQ0) = [])
    (hreg : sys.registered tf.trapno = false) :
    ((sys.proc = none ∨ tf.cs &&& 3 = 0) →
      (trap sys tf hs).outc = outcome.panicked ∧
      (trap sys tf hs).trace = kerneltrap_trace) ∧
    (∀ p, sys.proc = some p → tf.cs &&& 3 = 3 →
      (trap sys tf hs).outc = outcome.exited ∧
      (trap sys tf hs).sys.proc = some { p with killed := true } ∧
      Event.halt_ev ∉ (trap sys tf hs).trace) := by
  simp only [List.mem_cons, List.not_mem_nil, or_false, not_or] at hnc
  obtain ⟨h1, h2, h3, h4, h5, h6, h7, h8, h9, h10, h11, h12, h13, h14, h15⟩ := hnc
  have hstep : pf_step sys tf hs = { ret := -1, tf := tf, trace := [] } := by
    rw [pf_step, if_neg hpgne]
  have htu : trap sys tf hs = trap_unhandled sys tf [] := by
    rw [trap, if_neg h1, if_neg h2, if_neg h3, if_neg h4, if_neg h5,
      if_neg (by tauto : ¬ (tf.trapno = T_IRQ0 + IRQ_COM2 ∨
        tf.trapno = T_IRQ0 + IRQ_COM1)),
      if_neg (by tauto : ¬ (tf.trapno = T_IRQ0 + 7 ∨
        tf.trapno = T_IRQ0 + IRQ_SPURIOUS)),
      if_neg h10, if_neg h11, if_neg h12, if_neg h13, if_neg h14, if_neg h15,
      trap_default,
      if_neg (by intro hc; exact hill hc.1),
      if_neg (by intro hc; exact hill hc.1),
      if_neg (by intro hc; exact hc.2 (hchain hc.1)),
      if_neg (by intro hc; exact hpgne hc.1),
      if_neg (by intro hc; rw [hreg] at hc; exact Bool.false_ne_true hc.2),
      hstep]
  rw [htu]
  constructor
  · intro hker
    rw [trap_unhandled, if_pos hker]
    exact ⟨rfl, by simp⟩
  · intro p hp hcs
    rw [trap_unhandled, if_neg (by simp [hp, hcs]), hp]
    have hepi : trap_epilogue { sys with proc := some { p with killed := true } }
        tf ([] ++ [Event.kill_message]) =
        ⟨[Event.kill_message, Event.procexit_ev], tf,
          { sys with proc := some { p with killed := true } },
          outcome.exited⟩ := by
      rw [trap_epilogue]
      simp [hcs]
    have hmap : Option.map (fun q : proc_state => { q with killed := true })
        (some p) = some { p with killed := true } := rfl
    rw [hmap, hepi]
    exact ⟨rfl, rfl, by simp⟩

/-- Witness for `C4_unhandled_trap_policy`: vector 13 (general protection
fault, no handler installed) at kernel privilege panics; at user privilege
with a live process it kills only that process. -/
theorem C4_unhandled_trap_policy_witness :
    (trap ⟨⟨1, 0, 0, 0⟩, none, 0, 0, 0, 0, false, fun _ => [],
        fun _ => false⟩ ⟨13, 0, 8, 0, 0, fun _ => 0⟩ false).outc =
      outcome.panicked ∧
    (trap ⟨⟨1, 0, 0, 0⟩, some ⟨false, false, true, false⟩, 0, 0, 0, 0, false,
        fun _ => [], fun _ => false⟩
      ⟨13, 0, 27, 0, 0, fun _ => 0⟩ false).outc = outcome.exited :=
  ⟨((C4_unhandled_trap_policy _ _ false (by decide) (by decide) (by decide)
      (by intro h; norm_num [T_IRQ0] at h) rfl).1 (Or.inl rfl)).1,
    ((C4_unhandled_trap_policy _ _ false (by decide) (by decide) (by decide)
      (by intro h; norm_num [T_IRQ0] at h) rfl).2 ⟨false, false, true, false⟩
      rfl (by decide)).1⟩

/-- Modelled from the spec: the architectural semantics of the popcnt
instruction — the number of set bits of the source's 64-bit value. -/
def popcount64 (n : Nat) : Nat :=
  ((List.range 64).filter (fun i => n.testBit i)).length

/-- The trap frame of a kernel-mode illegal-instruction trap on
`popcnt rax, rcx` (bytes f3 48 0f b8 c1) with rcx = 1. -/
def c8_tf : trapframe :=
  { trapno := T_ILLOP, err := 0, cs := 8, rip := KTEXT, rbp := 0,
    regs := fun i => if i = 1 then 1 else 0 }

/-- System state for the popcnt emulation scenario: the fetched
instruction word holds the `popcnt rax, rcx` encoding. -/
def c8_sys : sys_state :=
  { cpu := ⟨1, 0, 0, 0⟩, proc := none, cr2 := 0, entry_count := 0,
    instr_at_rip := 0xC1B80F48F3, pf_result := 0, deliver_ok := false,
    irq_handlers := fun _ => [], registered := fun _ => false }

/-- C8 (counterexample): on a kernel-mode illegal-instruction trap whose
bytes match the popcnt pattern with source rcx = 1, the emulation advances
the instruction pointer by 5 and resumes, but leaves the destination
register rax at 0 even though the popcount of the source is 1: the loop's
`regs[rm]++` increments the local pointer-table slot instead of the
destination register, so the claimed population count is never stored. -/
theorem C8_popcnt_emulation_writes_zero :
    (trap c8_sys c8_tf false).tf.regs 0 = 0 ∧
    (trap c8_sys c8_tf false).tf.rip = KTEXT + 5 ∧
    (trap c8_sys c8_tf false).outc = outcome.resume ∧
    popcount64 (c8_tf.regs 1) = 1 ∧
    popcount64 (c8_tf.regs 1) ≠ (trap c8_sys c8_tf false).tf.regs 0 := by
  refine ⟨?_, ?_, ?_, ?_, ?_⟩ <;> decide

end Sv6
